import Mathlib

/-!
Verification of the SCADA-LTS MCP adapter (`scada_lts_mcp.py`).

The development shallowly embeds the Python source: JSON payloads are a
`Json` inductive, the HTTP transport is an oracle `Net` mapping each
request to an outcome (a status/body response or a raised transport
exception), Python exceptions are an explicit `Except PyErr` layer, and
every operation also returns the list of HTTP requests it issued, so
"issues no request" is directly observable.
-/

namespace Scada

/-- JSON values (Python objects produced by `response.json()` and tool
arguments).  Numbers are modelled as integers. -/
inductive Json where
  | null : Json
  | bool (b : Bool) : Json
  | num (n : Int) : Json
  | str (s : String) : Json
  | arr (xs : List Json) : Json
  | obj (fields : List (String × Json)) : Json

/-- Python truthiness (`bool(x)`): `None`, `False`, `0`, `""`, `[]`, `{}`
are falsy, everything else truthy. -/
def Json.truthy : Json → Bool
  | .null => false
  | .bool b => b
  | .num n => !(n == 0)
  | .str s => !(s == "")
  | .arr xs => !xs.isEmpty
  | .obj fs => !fs.isEmpty

/-- Python `d.get(k)` on a parsed JSON dict: `none` when the key is
missing (Python returns `None`).  Python raises `AttributeError` when the
receiver is not a dict, so every call site matches the `.obj` case first
and models the non-dict receiver explicitly. -/
def Json.getField : Json → String → Option Json
  | .obj fs, k => (fs.find? (fun kv => kv.1 == k)).map (fun kv => kv.2)
  | _, _ => none

/-- Whether a parsed JSON value is a dict (has the `.get` attribute). -/
def Json.isObj : Json → Bool
  | .obj _ => true
  | _ => false

/-- Python `None` result coding: a parsed JSON `null` is Python `None`. -/
def Json.toPyOpt : Json → Option Json
  | .null => none
  | j => some j

/-- Stored dict value for a Python value that may be `None`. -/
def optToJson : Option Json → Json
  | none => .null
  | some j => j

/-- Python exceptions that the adapter code can raise. -/
inductive PyErr where
  | keyError (k : String) : PyErr
  | valueError (msg : String) : PyErr
  | typeError (msg : String) : PyErr
  | attributeError (msg : String) : PyErr

/-- Python `str(e)` for an exception (`str(KeyError("k"))` is `"'k'"`). -/
def PyErr.pyStr : PyErr → String
  | .keyError k => "\x27" ++ k ++ "\x27"
  | .valueError m => m
  | .typeError m => m
  | .attributeError m => m

/-- Separator joining (`", "`-style) used by the Python printers. -/
def joinSep (sep : String) : List String → String
  | [] => ""
  | [x] => x
  | x :: y :: xs => x ++ sep ++ joinSep sep (y :: xs)

def spaces (n : Nat) : String := String.mk (List.replicate n ' ')

/-- Approximation of `json.dumps` string escaping (quote, backslash and
common control characters). -/
def escChar : Char → String
  | '\\' => "\\\\"
  | '\"' => "\\\""
  | '\n' => "\\n"
  | '\t' => "\\t"
  | '\r' => "\\r"
  | ch => String.mk [ch]

def jsonEscape (s : String) : String :=
  String.join (s.data.map escChar)

/-- Python `repr` of a parsed-JSON value (used by `str()` on containers,
e.g. in f-strings).  String escaping inside `repr` is approximated. -/
def pyRepr : Json → String
  | .null => "None"
  | .bool true => "True"
  | .bool false => "False"
  | .num n => toString n
  | .str s => "\x27" ++ s ++ "\x27"
  | .arr xs =>
      "[" ++ joinSep ", " (xs.attach.map (fun e => pyRepr e.1)) ++ "]"
  | .obj fs =>
      "\x7b" ++
        joinSep ", "
          (fs.attach.map
            (fun e => "\x27" ++ e.1.1 ++ "\x27: " ++ pyRepr e.1.2)) ++
      "\x7d"
termination_by j => sizeOf j
decreasing_by
  · have h := List.sizeOf_lt_of_mem e.2
    simp at h ⊢
    omega
  · obtain ⟨⟨a, b⟩, hmem⟩ := e
    have h := List.sizeOf_lt_of_mem hmem
    simp at h ⊢
    omega

/-- Python `str(x)` for interpolation into f-strings. -/
def pyStr : Json → String
  | .null => "None"
  | .bool true => "True"
  | .bool false => "False"
  | .num n => toString n
  | .str s => s
  | .arr xs => pyRepr (.arr xs)
  | .obj fs => pyRepr (.obj fs)

/-- Python `json.dumps(_, indent=2)`, at a given nesting level. -/
def dumpsAux : Json → Nat → String
  | .null, _ => "null"
  | .bool true, _ => "true"
  | .bool false, _ => "false"
  | .num n, _ => toString n
  | .str s, _ => "\"" ++ jsonEscape s ++ "\""
  | .arr [], _ => "[]"
  | .arr (x :: xs), lvl =>
      "[\n" ++
        joinSep ",\n"
          ((x :: xs).attach.map
            (fun e => spaces ((lvl + 1) * 2) ++ dumpsAux e.1 (lvl + 1))) ++
      "\n" ++ spaces (lvl * 2) ++ "]"
  | .obj [], _ => "\x7b\x7d"
  | .obj (f :: fs), lvl =>
      "\x7b\n" ++
        joinSep ",\n"
          ((f :: fs).attach.map
            (fun e => spaces ((lvl + 1) * 2) ++ "\"" ++ jsonEscape e.1.1 ++
              "\": " ++ dumpsAux e.1.2 (lvl + 1))) ++
      "\n" ++ spaces (lvl * 2) ++ "\x7d"
termination_by j _ => sizeOf j
decreasing_by
  · have h := List.sizeOf_lt_of_mem e.2
    simp at h ⊢
    omega
  · obtain ⟨⟨a, b⟩, hmem⟩ := e
    have h := List.sizeOf_lt_of_mem hmem
    simp at h ⊢
    omega

/-- Python `json.dumps(x, indent=2)`. -/
def pyDumps (j : Json) : String := dumpsAux j 0

/-- Python `json.dumps` turns non-string dict keys into strings (`3` into `"3"`,
`True` into `"true"`, `None` into `"null"`). -/
def jsonKeyStr : Json → String
  | .str s => s
  | .num n => toString n
  | .bool true => "true"
  | .bool false => "false"
  | .null => "null"
  | j => pyStr j

/-- Python `json.dumps(d, indent=2)` for a dict with JSON-scalar keys. -/
def pyDumpsDict (d : List (Json × Json)) : String :=
  pyDumps (.obj (d.map (fun kv => (jsonKeyStr kv.1, kv.2))))

/-- Python `len(x)`: defined for lists, dicts and strings, a `TypeError`
otherwise. -/
def pyLen (j : Json) : Except PyErr Nat :=
  match j with
  | .arr l => .ok l.length
  | .obj fs => .ok fs.length
  | .str s => .ok s.length
  | .null => .error (.typeError "object of type \x27NoneType\x27 has no len()")
  | .bool _ => .error (.typeError "object of type \x27bool\x27 has no len()")
  | .num _ => .error (.typeError "object of type \x27int\x27 has no len()")

/-- Python iteration `for x in j`: lists yield their elements, dicts their
keys, strings their characters; other values raise `TypeError`. -/
def pyIterElems (j : Json) : Except PyErr (List Json) :=
  match j with
  | .arr l => .ok l
  | .obj fs => .ok (fs.map (fun kv => Json.str kv.1))
  | .str s => .ok (s.data.map (fun ch => Json.str (String.mk [ch])))
  | _ => .error (.typeError "object is not iterable")

/-- Python `len` of a value already known to be iterable (list, dict or string);
agrees with `pyLen` there.  Off-domain values return `0` (unreachable in
the places where this is used). -/
def pyLenA (j : Json) : Nat :=
  match j with
  | .arr l => l.length
  | .obj fs => fs.length
  | .str s => s.length
  | _ => 0

/-- Scalar-key equality of Python dicts (`hash`/`==`): `True == 1`,
`False == 0`; lists and dicts are unhashable and never reach this. -/
def pyKeyEq : Json → Json → Bool
  | .null, .null => true
  | .bool a, .bool b => a == b
  | .bool a, .num n => (if a then (1 : Int) else 0) == n
  | .num n, .bool a => n == (if a then (1 : Int) else 0)
  | .num a, .num b => a == b
  | .str a, .str b => a == b
  | _, _ => false

/-- In-place update of an existing key (keeps the original key object and
position, as a Python dict does). -/
def dictSetKnown (k v : Json) : List (Json × Json) → List (Json × Json)
  | [] => [(k, v)]
  | (k0, v0) :: rest =>
      if pyKeyEq k0 k then (k0, v) :: rest
      else (k0, v0) :: dictSetKnown k v rest

/-- Python `d[k] = v` on a dict: raises `TypeError` for unhashable keys
(lists, dicts), otherwise inserts or overwrites. -/
def dictSet (d : List (Json × Json)) (k v : Json) :
    Except PyErr (List (Json × Json)) :=
  match k with
  | .arr _ => .error (.typeError "unhashable type: \x27list\x27")
  | .obj _ => .error (.typeError "unhashable type: \x27dict\x27")
  | _ => .ok (dictSetKnown k v d)

/-- Lookup in a string-keyed arguments dict (`d.get(k)`). -/
def pyGet (d : List (String × Json)) (k : String) : Option Json :=
  (d.find? (fun kv => kv.1 == k)).map (fun kv => kv.2)

/-- Python `d.get(k, default)`. -/
def pyGetD (d : List (String × Json)) (k : String) (dflt : Json) : Json :=
  (pyGet d k).getD dflt

/-- Python `d[k]`: raises `KeyError` when the key is missing. -/
def pyGetItem (d : List (String × Json)) (k : String) : Except PyErr Json :=
  match pyGet d k with
  | some v => .ok v
  | none => .error (.keyError k)

/-- Lookup in the string-valued prompt-arguments dict. -/
def pyGetS (d : List (String × String)) (k : String) : Option String :=
  (d.find? (fun kv => kv.1 == k)).map (fun kv => kv.2)

/-- Python `d.get(k, default)` for prompt arguments. -/
def pyGetSD (d : List (String × String)) (k dflt : String) : String :=
  (pyGetS d k).getD dflt

/-- Python `d[k]` for prompt arguments. -/
def pyGetItemS (d : List (String × String)) (k : String) :
    Except PyErr String :=
  match pyGetS d k with
  | some v => .ok v
  | none => .error (.keyError k)

/-- ASCII lowering, modelling `str.lower()` on the ASCII strings used
here. -/
def strLower (s : String) : String := String.mk (s.data.map Char.toLower)

/-- Leading/trailing-whitespace stripping performed by Python `int()`. -/
def stripWs (s : List Char) : List Char :=
  ((s.dropWhile Char.isWhitespace).reverse.dropWhile Char.isWhitespace).reverse

/-- Digit-sequence parsing of Python `int()`: digits with optional single
underscores between them. -/
def digitsCore : List Char → Nat → Option Nat
  | [], acc => some acc
  | ['_'], _ => none
  | '_' :: c :: rest, acc =>
      if c.isDigit then digitsCore rest (acc * 10 + (c.toNat - 48)) else none
  | c :: rest, acc =>
      if c.isDigit then digitsCore rest (acc * 10 + (c.toNat - 48)) else none

/-- Unsigned part of `int()`: must start with a digit. -/
def parseDigits : List Char → Option Nat
  | [] => none
  | c :: rest =>
      if c.isDigit then digitsCore rest (c.toNat - 48) else none

/-- Python `int(s)` for a string: optional surrounding whitespace, optional
sign, decimal digits; raises `ValueError` otherwise. -/
def pyInt (s : String) : Except PyErr Int :=
  let err : Except PyErr Int :=
    .error (.valueError
      ("invalid literal for int() with base 10: \x27" ++ s ++ "\x27"))
  match stripWs s.data with
  | '-' :: rest => match parseDigits rest with
    | some n => .ok (-(n : Int))
    | none => err
  | '+' :: rest => match parseDigits rest with
    | some n => .ok (n : Int)
    | none => err
  | cs => match parseDigits cs with
    | some n => .ok (n : Int)
    | none => err

/-! ## HTTP transport model -/

inductive HttpMethod where
  | get : HttpMethod
  | post : HttpMethod

/-- One outbound HTTP request, as issued by the `httpx` client: method,
full URL, headers, and optional JSON body. -/
structure HttpRequest where
  method : HttpMethod
  url : String
  headers : List (String × String)
  body : Option Json

/-- What the transport does with a request: a response with a status code
and a body (`.ok` when `response.json()` would parse, `.error` when it
would raise), or a raised transport exception (connection failure,
timeout). -/
inductive HttpOutcome where
  | response (status : Nat) (body : Except String Json) : HttpOutcome
  | exn (msg : String) : HttpOutcome

/-- The transport oracle: the remote system's behaviour on each request. -/
abbrev Net := HttpRequest → HttpOutcome

/-! ## Remote Client (`ScadaLTSClient`) -/

/-- Python `base_url.rstrip('/')`. -/
def rstripSlash (s : String) : String :=
  String.mk ((s.data.reverse.dropWhile (fun c => c == '/')).reverse)

/-- State of `ScadaLTSClient`: stored connection configuration plus the
optional session token (`None` in Python is `none` here).  `username` and
`password` are kept as the values passed in (the dispatcher may pass any
JSON value through `arguments.get`). -/
structure ScadaLTSClient where
  base_url : String
  username : Json
  password : Json
  session_token : Option Json

/-- Constructor `ScadaLTSClient.__init__`: strips trailing slashes from the base URL
and starts with no session token. -/
def ScadaLTSClient.init (base_url : String) (username password : Json) :
    ScadaLTSClient :=
  { base_url := rstripSlash base_url, username := username,
    password := password, session_token := none }

/-- Truthiness of the stored session token (`if self.session_token:`). -/
def tokenTruthy : Option Json → Bool
  | none => false
  | some t => t.truthy

/-- Method `_get_headers`: always `Content-Type: application/json`, plus
`Authorization: Bearer <token>` when the session token is truthy. -/
def ScadaLTSClient._get_headers (c : ScadaLTSClient) :
    List (String × String) :=
  match c.session_token with
  | some t =>
      if t.truthy then
        [("Content-Type", "application/json"),
         ("Authorization", "Bearer " ++ pyStr t)]
      else [("Content-Type", "application/json")]
  | none => [("Content-Type", "application/json")]

/-- The login request issued by `authenticate` (httpx adds the
`Content-Type: application/json` header for a `json=` body; no
`Authorization` header is passed). -/
def ScadaLTSClient.authReq (c : ScadaLTSClient) : HttpRequest :=
  { method := .post, url := c.base_url ++ "/api/auth/login",
    headers := [("Content-Type", "application/json")],
    body := some (.obj [("username", c.username), ("password", c.password)]) }

/-- Method `authenticate()`: guest mode succeeds immediately with no request;
otherwise POST credentials.  On HTTP 200 with a dict body the `token`
field is stored (a missing key or a JSON `null` value both leave Python
`None`) and success is reported; on a 200 body that is not a dict,
`data.get("token")` raises `AttributeError`, which the `except` catches
to report failure with the token unchanged — like any other status,
parse failure or transport exception. -/
def ScadaLTSClient.authenticate (c : ScadaLTSClient) (net : Net) :
    (Bool × ScadaLTSClient) × List HttpRequest :=
  if !c.username.truthy || !c.password.truthy then
    ((true, c), [])
  else
    match net c.authReq with
    | .response status body =>
        if status == 200 then
          match body with
          | .ok data =>
              match data with
              | .obj fs =>
                  ((true, { c with session_token :=
                      ((Json.obj fs).getField "token").bind Json.toPyOpt }),
                   [c.authReq])
              | _ => ((false, c), [c.authReq])
          | .error _ => ((false, c), [c.authReq])
        else ((false, c), [c.authReq])
    | .exn _ => ((false, c), [c.authReq])

def ScadaLTSClient.get_data_sources_req (c : ScadaLTSClient) : HttpRequest :=
  { method := .get, url := c.base_url ++ "/api/datasources",
    headers := c._get_headers, body := none }

/-- Method `get_data_sources()`: 200 gives the parsed JSON, anything else
(non-200, parse failure, transport exception) the empty list. -/
def ScadaLTSClient.get_data_sources (c : ScadaLTSClient) (net : Net) :
    Json × List HttpRequest :=
  match net c.get_data_sources_req with
  | .response status body =>
      if status == 200 then
        match body with
        | .ok j => (j, [c.get_data_sources_req])
        | .error _ => (.arr [], [c.get_data_sources_req])
      else (.arr [], [c.get_data_sources_req])
  | .exn _ => (.arr [], [c.get_data_sources_req])

/-- The `get_data_points` URL: the `dataSourceId` filter is appended only when
the argument is truthy (`if data_source_id:`). -/
def ScadaLTSClient.get_data_points_req (c : ScadaLTSClient)
    (data_source_id : Option Json) : HttpRequest :=
  let url := c.base_url ++ "/api/datapoints"
  let url :=
    match data_source_id with
    | some v => if v.truthy then url ++ "?dataSourceId=" ++ pyStr v else url
    | none => url
  { method := .get, url := url, headers := c._get_headers, body := none }

/-- Method `get_data_points(data_source_id=None)`: same contract as
`get_data_sources`. -/
def ScadaLTSClient.get_data_points (c : ScadaLTSClient)
    (data_source_id : Option Json) (net : Net) : Json × List HttpRequest :=
  match net (c.get_data_points_req data_source_id) with
  | .response status body =>
      if status == 200 then
        match body with
        | .ok j => (j, [c.get_data_points_req data_source_id])
        | .error _ => (.arr [], [c.get_data_points_req data_source_id])
      else (.arr [], [c.get_data_points_req data_source_id])
  | .exn _ => (.arr [], [c.get_data_points_req data_source_id])

def ScadaLTSClient.get_point_value_req (c : ScadaLTSClient)
    (point_id : Json) : HttpRequest :=
  { method := .get,
    url := c.base_url ++ "/api/point-values/" ++ pyStr point_id ++ "/latest",
    headers := c._get_headers, body := none }

/-- Method `get_point_value(point_id)`: 200 gives the parsed value (Python `None`
for a JSON `null` body), anything else gives `None`. -/
def ScadaLTSClient.get_point_value (c : ScadaLTSClient) (point_id : Json)
    (net : Net) : Option Json × List HttpRequest :=
  match net (c.get_point_value_req point_id) with
  | .response status body =>
      if status == 200 then
        match body with
        | .ok j => (j.toPyOpt, [c.get_point_value_req point_id])
        | .error _ => (none, [c.get_point_value_req point_id])
      else (none, [c.get_point_value_req point_id])
  | .exn _ => (none, [c.get_point_value_req point_id])

def ScadaLTSClient.set_point_value_req (c : ScadaLTSClient)
    (point_id value : Json) : HttpRequest :=
  { method := .post,
    url := c.base_url ++ "/api/point-values/" ++ pyStr point_id ++ "/set",
    headers := c._get_headers, body := some (.obj [("value", value)]) }

/-- Method `set_point_value(point_id, value)`: success is exactly status 200; a
transport exception gives `False`. -/
def ScadaLTSClient.set_point_value (c : ScadaLTSClient)
    (point_id value : Json) (net : Net) : Bool × List HttpRequest :=
  match net (c.set_point_value_req point_id value) with
  | .response status _ => (status == 200, [c.set_point_value_req point_id value])
  | .exn _ => (false, [c.set_point_value_req point_id value])

/-- The `get_alarms` URL: `?active=true` is appended when `active_only` is
truthy. -/
def ScadaLTSClient.get_alarms_req (c : ScadaLTSClient)
    (active_only : Json) : HttpRequest :=
  let url := c.base_url ++ "/api/alarms"
  let url := if active_only.truthy then url ++ "?active=true" else url
  { method := .get, url := url, headers := c._get_headers, body := none }

/-- Method `get_alarms(active_only=True)`: same list contract. -/
def ScadaLTSClient.get_alarms (c : ScadaLTSClient) (active_only : Json)
    (net : Net) : Json × List HttpRequest :=
  match net (c.get_alarms_req active_only) with
  | .response status body =>
      if status == 200 then
        match body with
        | .ok j => (j, [c.get_alarms_req active_only])
        | .error _ => (.arr [], [c.get_alarms_req active_only])
      else (.arr [], [c.get_alarms_req active_only])
  | .exn _ => (.arr [], [c.get_alarms_req active_only])

def ScadaLTSClient.acknowledge_alarm_req (c : ScadaLTSClient)
    (alarm_id : Json) : HttpRequest :=
  { method := .post,
    url := c.base_url ++ "/api/alarms/" ++ pyStr alarm_id ++ "/ack",
    headers := c._get_headers, body := none }

/-- Method `acknowledge_alarm(alarm_id)`: success is exactly status 200. -/
def ScadaLTSClient.acknowledge_alarm (c : ScadaLTSClient) (alarm_id : Json)
    (net : Net) : Bool × List HttpRequest :=
  match net (c.acknowledge_alarm_req alarm_id) with
  | .response status _ => (status == 200, [c.acknowledge_alarm_req alarm_id])
  | .exn _ => (false, [c.acknowledge_alarm_req alarm_id])

def ScadaLTSClient.get_system_status_req (c : ScadaLTSClient) : HttpRequest :=
  { method := .get, url := c.base_url ++ "/api/system/status",
    headers := c._get_headers, body := none }

/-- Method `get_system_status()`: 200 gives the parsed object; a non-200 status
gives `{"status": "unknown", "error": "HTTP <code>"}`; an exception
(including a JSON parse failure) gives `{"status": "error", "error": e}`. -/
def ScadaLTSClient.get_system_status (c : ScadaLTSClient) (net : Net) :
    Json × List HttpRequest :=
  match net c.get_system_status_req with
  | .response status body =>
      if status == 200 then
        match body with
        | .ok j => (j, [c.get_system_status_req])
        | .error e =>
            (.obj [("status", .str "error"), ("error", .str e)],
             [c.get_system_status_req])
      else
        (.obj [("status", .str "unknown"),
               ("error", .str ("HTTP " ++ toString status))],
         [c.get_system_status_req])
  | .exn e =>
      (.obj [("status", .str "error"), ("error", .str e)],
       [c.get_system_status_req])

/-! ## Tool dispatcher (`call_tool`) -/

structure TextContent where
  text : String

structure CallToolResult where
  content : List TextContent

def textResult (s : String) : CallToolResult := ⟨[⟨s⟩]⟩

/-- The fixed 8-entry tool catalog (the names declared by `list_tools` and
dispatched by `call_tool`). -/
def toolNames : List String :=
  ["get_data_sources", "get_data_points", "get_point_value",
   "set_point_value", "get_alarms", "acknowledge_alarm",
   "get_system_status", "configure_connection"]

def advisoryText : String :=
  "SCADA-LTS client not configured. Please use configure_connection tool first."

/-- The configured-client part of `call_tool`'s dispatch (the
`if name == ...` chain after the configuration check).  Returns the
result (or the Python exception escaping towards `call_tool`'s
`except`) and the issued requests. -/
def dispatch_tool (c : ScadaLTSClient) (net : Net) (name : String)
    (args : List (String × Json)) :
    Except PyErr CallToolResult × List HttpRequest :=
  if name = "get_data_sources" then
    let r := c.get_data_sources net
    (match pyLen r.1 with
     | .ok n =>
         .ok (textResult
           ("Found " ++ toString n ++ " data sources:\n" ++ pyDumps r.1))
     | .error e => .error e, r.2)
  else if name = "get_data_points" then
    let data_source_id := pyGet args "data_source_id"
    let r := c.get_data_points data_source_id net
    let filter_text :=
      match data_source_id with
      | some v => if v.truthy then " for data source " ++ pyStr v else ""
      | none => ""
    (match pyLen r.1 with
     | .ok n =>
         .ok (textResult
           ("Found " ++ toString n ++ " data points" ++ filter_text ++
            ":\n" ++ pyDumps r.1))
     | .error e => .error e, r.2)
  else if name = "get_point_value" then
    match pyGetItem args "point_id" with
    | .error e => (.error e, [])
    | .ok point_id =>
      let r := c.get_point_value point_id net
      match r.1 with
      | some j =>
          (.ok (textResult
            ("Point " ++ pyStr point_id ++ " value:\n" ++ pyDumps j)), r.2)
      | none =>
          (.ok (textResult
            ("Could not retrieve value for point " ++ pyStr point_id)), r.2)
  else if name = "set_point_value" then
    match pyGetItem args "point_id" with
    | .error e => (.error e, [])
    | .ok point_id =>
      match pyGetItem args "value" with
      | .error e => (.error e, [])
      | .ok value =>
        let r := c.set_point_value point_id value net
        (.ok (textResult
          ("Setting point " ++ pyStr point_id ++ " to " ++ pyStr value ++
           ": " ++ (if r.1 then "successful" else "failed"))), r.2)
  else if name = "get_alarms" then
    let active_only := pyGetD args "active_only" (.bool true)
    let r := c.get_alarms active_only net
    let alarm_type := if active_only.truthy then "active" else "all"
    (match pyLen r.1 with
     | .ok n =>
         .ok (textResult
           ("Found " ++ toString n ++ " " ++ alarm_type ++ " alarms:\n" ++
            pyDumps r.1))
     | .error e => .error e, r.2)
  else if name = "acknowledge_alarm" then
    match pyGetItem args "alarm_id" with
    | .error e => (.error e, [])
    | .ok alarm_id =>
      let r := c.acknowledge_alarm alarm_id net
      (.ok (textResult
        ("Acknowledging alarm " ++ pyStr alarm_id ++ ": " ++
         (if r.1 then "successful" else "failed"))), r.2)
  else if name = "get_system_status" then
    let r := c.get_system_status net
    (.ok (textResult ("System status:\n" ++ pyDumps r.1)), r.2)
  else
    (.ok (textResult ("Unknown tool: " ++ name)), [])

/-- The body of `call_tool`'s `try:` block, as a state transformer on the
global `scada_client`.  Only `configure_connection` produces a new state;
every other branch leaves it alone (the Python function assigns the
global only there). -/
def call_tool_body (st : Option ScadaLTSClient) (net : Net) (name : String)
    (args : List (String × Json)) :
    Except PyErr (CallToolResult × Option ScadaLTSClient) × List HttpRequest :=
  if name = "configure_connection" then
    match pyGetItem args "base_url" with
    | .error e => (.error e, [])
    | .ok bu =>
      match bu with
      | .str base_url =>
          let username := pyGetD args "username" (.str "")
          let password := pyGetD args "password" (.str "")
          let c0 := ScadaLTSClient.init base_url username password
          let a := c0.authenticate net
          (.ok (textResult
              ("Connection configured for " ++ base_url ++
               ". Authentication: " ++
               (if a.1.1 then "successful" else "failed or guest mode")),
            some a.1.2), a.2)
      | _ =>
          (.error (.attributeError "object has no attribute \x27rstrip\x27"), [])
  else
    match st with
    | none => (.ok (textResult advisoryText, none), [])
    | some c =>
      let r := dispatch_tool c net name args
      (match r.1 with
       | .ok res => .ok (res, some c)
       | .error e => .error e, r.2)

/-- Handler `call_tool`: the body wrapped in the top-level `except Exception`,
which renders any escaping exception as a text result and leaves the
global state as it was. -/
def call_tool (st : Option ScadaLTSClient) (net : Net) (name : String)
    (args : List (String × Json)) :
    CallToolResult × Option ScadaLTSClient × List HttpRequest :=
  let b := call_tool_body st net name args
  match b.1 with
  | .ok rs => (rs.1, rs.2, b.2)
  | .error e =>
      (textResult ("Error executing " ++ name ++ ": " ++ e.pyStr), st, b.2)

/-! ## Prompt handler (`get_prompt`) -/

structure GetPromptResult where
  description : String
  messages : List String

/-- The `next((ds for ds in data_sources if ds.get("id") == i), None)`
comparison: Python `==` between `ds.get("id")` and the int argument. -/
def pyEqInt : Option Json → Int → Bool
  | some (.num m), n => m == n
  | some (.bool b), n => (if b then (1 : Int) else 0) == n
  | _, _ => false

/-- The generator scan over the data-source list: the first element whose
`id` field equals the argument; raises `AttributeError` when a scanned
element is not a dict. -/
def findDataSource : List Json → Int → Except PyErr (Option Json)
  | [], _ => .ok none
  | ds :: rest, i =>
      match ds with
      | .obj fs =>
          if pyEqInt (Json.getField (.obj fs) "id") i then .ok (some (.obj fs))
          else findDataSource rest i
      | _ => .error (.attributeError "object has no attribute \x27get\x27")

/-- The `for dp in data_points:` loop of `data_point_analysis`: for each
element with a truthy `id`, fetch its current value and store it under
that id.  Returns the accumulated dict (or the escaping exception) and
the issued requests. -/
def fetchPointValues (c : ScadaLTSClient) (net : Net) :
    List Json → List (Json × Json) →
    Except PyErr (List (Json × Json)) × List HttpRequest
  | [], acc => (.ok acc, [])
  | dp :: rest, acc =>
      match dp with
      | .obj fs =>
          match Json.getField (.obj fs) "id" with
          | some point_id =>
              if point_id.truthy then
                let v := c.get_point_value point_id net
                match dictSet acc point_id (optToJson v.1) with
                | .ok acc2 =>
                    let r := fetchPointValues c net rest acc2
                    (r.1, v.2 ++ r.2)
                | .error e => (.error e, v.2)
              else fetchPointValues c net rest acc
          | none => fetchPointValues c net rest acc
      | _ => (.error (.attributeError "object has no attribute \x27get\x27"), [])

/-- The Markdown body of `scada_system_overview` (before the optional
alarm section). -/
def overviewContent (system_status : Json) (nds : Nat) (dsJ : Json)
    (ndp : Nat) (dpJ : Json) : String :=
  "# SCADA-LTS System Overview\n\n## System Status\n" ++
    pyDumps system_status ++
  "\n\n## Data Sources (" ++ toString nds ++ " total)\n" ++ pyDumps dsJ ++
  "\n\n## Data Points (" ++ toString ndp ++ " total)\n" ++ pyDumps dpJ ++ "\n"

/-- The alarm section appended when `include_alarms` is `"true"`. -/
def alarmSection (nal : Nat) (alJ : Json) : String :=
  "\n## Active Alarms (" ++ toString nal ++ " total)\n" ++ pyDumps alJ ++ "\n"

/-- The Markdown body of `data_point_analysis`. -/
def analysisContent (target_ds dpJ : Json) (pv : List (Json × Json)) :
    String :=
  "# Data Source Analysis: " ++
    (match Json.getField target_ds "name" with
     | some v => pyStr v
     | none => "Unknown") ++
  "\n\n## Data Source Details\n" ++ pyDumps target_ds ++
  "\n\n## Data Points (" ++ toString (pyLenA dpJ) ++ " total)\n" ++
    pyDumps dpJ ++
  "\n\n## Current Values\n" ++ pyDumpsDict pv ++ "\n"

/-- The configured part of `get_prompt` (the `if name == ...` chain that
runs when a client exists).  Returns the prompt result — or the Python
exception escaping the handler, since `get_prompt` has no `try`/`except`
— together with the issued requests. -/
def get_prompt_core (c : ScadaLTSClient) (net : Net) (name : String)
    (args : List (String × String)) :
    Except PyErr GetPromptResult × List HttpRequest :=
  if name = "scada_system_overview" then
    let include_alarms :=
      strLower (pyGetSD args "include_alarms" "false") == "true"
    let rds := c.get_data_sources net
    let rdp := c.get_data_points none net
    let rst := c.get_system_status net
    match pyLen rds.1 with
    | .error e => (.error e, rds.2 ++ rdp.2 ++ rst.2)
    | .ok nds =>
      match pyLen rdp.1 with
      | .error e => (.error e, rds.2 ++ rdp.2 ++ rst.2)
      | .ok ndp =>
        let content := overviewContent rst.1 nds rds.1 ndp rdp.1
        if include_alarms then
          let ral := c.get_alarms (.bool true) net
          match pyLen ral.1 with
          | .error e => (.error e, rds.2 ++ rdp.2 ++ rst.2 ++ ral.2)
          | .ok nal =>
              (.ok { description := "SCADA-LTS system overview",
                     messages := [content ++ alarmSection nal ral.1] },
               rds.2 ++ rdp.2 ++ rst.2 ++ ral.2)
        else
          (.ok { description := "SCADA-LTS system overview",
                 messages := [content] }, rds.2 ++ rdp.2 ++ rst.2)
  else if name = "data_point_analysis" then
    match pyGetItemS args "data_source_id" with
    | .error e => (.error e, [])
    | .ok sArg =>
      match pyInt sArg with
      | .error e => (.error e, [])
      | .ok data_source_id =>
        let rds := c.get_data_sources net
        match pyIterElems rds.1 with
        | .error e => (.error e, rds.2)
        | .ok elems =>
          match findDataSource elems data_source_id with
          | .error e => (.error e, rds.2)
          | .ok target =>
            match target with
            | none =>
                (.ok { description := "Data source not found",
                       messages :=
                         ["Data source with ID " ++ toString data_source_id ++
                          " not found."] }, rds.2)
            | some target_ds =>
              if !target_ds.truthy then
                (.ok { description := "Data source not found",
                       messages :=
                         ["Data source with ID " ++ toString data_source_id ++
                          " not found."] }, rds.2)
              else
                let rdp := c.get_data_points (some (.num data_source_id)) net
                match pyIterElems rdp.1 with
                | .error e => (.error e, rds.2 ++ rdp.2)
                | .ok points =>
                  let rpv := fetchPointValues c net points []
                  match rpv.1 with
                  | .error e => (.error e, rds.2 ++ rdp.2 ++ rpv.2)
                  | .ok point_values =>
                      (.ok { description :=
                               "Analysis of data source " ++
                                 toString data_source_id,
                             messages :=
                               [analysisContent target_ds rdp.1 point_values] },
                       rds.2 ++ rdp.2 ++ rpv.2)
  else
    (.ok { description := "Unknown prompt",
           messages := ["Unknown prompt: " ++ name] }, [])

/-- Handler `get_prompt`: the unconfigured advisory, or the configured handler.
The Python function declares the global client but never assigns it, so
the state component of the result is the input state by construction. -/
def get_prompt (st : Option ScadaLTSClient) (net : Net) (name : String)
    (args : List (String × String)) :
    Except PyErr GetPromptResult × Option ScadaLTSClient × List HttpRequest :=
  match st with
  | none =>
      (.ok { description := "SCADA-LTS client not configured",
             messages :=
               ["Please configure SCADA-LTS connection first using the configure_connection tool."] },
       none, [])
  | some c =>
      let r := get_prompt_core c net name args
      (r.1, some c, r.2)

/-- The states the global `scada_client` can reach from process start
(initially unconfigured) through any sequence of tool and prompt
invocations. -/
inductive Reachable : Option ScadaLTSClient → Prop where
  | init : Reachable none
  | tool (st : Option ScadaLTSClient) (net : Net) (name : String)
      (args : List (String × Json)) :
      Reachable st → Reachable (call_tool st net name args).2.1
  | promptStep (st : Option ScadaLTSClient) (net : Net) (name : String)
      (args : List (String × String)) :
      Reachable st → Reachable (get_prompt st net name args).2.1

/-- Decides that a string has no trailing slash. -/
def noTrailSlash (s : String) : Bool :=
  match s.data.getLast? with
  | some c => !(c == '/')
  | none => true

/-! ## Concrete fixtures used by witnesses and counterexamples -/

/-- A transport that always raises a connection error. -/
def netFail : Net := fun _ => .exn "connection refused"

/-- A configured guest-mode client. -/
def clientEx : ScadaLTSClient :=
  ScadaLTSClient.init "http://scada" (.str "") (.str "")

/-- A client configured with credentials (before authentication). -/
def clientCred : ScadaLTSClient :=
  ScadaLTSClient.init "http://scada" (.str "admin") (.str "pw")

/-- A remote system whose login endpoint returns a token. -/
def netTok : Net := fun _ =>
  .response 200 (.ok (.obj [("token", .str "abc123")]))

/-- A remote system that answers every request with a 200 empty-array
body. -/
def netArr200 : Net := fun _ => .response 200 (.ok (.arr []))

/-- The client after authenticating against `netTok`. -/
def clientCredAuthed : ScadaLTSClient := (clientCred.authenticate netTok).1.2

/-- A remote system whose login endpoint returns an empty-string token. -/
def netEmptyTok : Net := fun _ =>
  .response 200 (.ok (.obj [("token", .str "")]))

/-- The client after authenticating against `netEmptyTok`: its session
token is set, but set to the falsy `""`. -/
def clientEmptyTok : ScadaLTSClient :=
  ((ScadaLTSClient.init "http://scada" (.str "u") (.str "p")).authenticate
    netEmptyTok).1.2

/-- Arguments for a guest-mode `configure_connection` call. -/
def cfgArgs : List (String × Json) := [("base_url", .str "http://h/")]

/-- The client produced by a guest-mode `configure_connection` on
`cfgArgs`. -/
def clientCfg : ScadaLTSClient :=
  ScadaLTSClient.init "http://h/" (.str "") (.str "")

/-- The remote system of the C9 counterexample: one data source with id 1,
whose data points are a single point with the present but falsy id 0. -/
def netId0 : Net := fun r =>
  if r.url = "http://scada/api/datasources" then
    .response 200 (.ok (.arr [.obj [("id", .num 1)]]))
  else if r.url = "http://scada/api/datapoints?dataSourceId=1" then
    .response 200 (.ok (.arr [.obj [("id", .num 0)]]))
  else
    .response 200 (.ok (.obj [("value", .num 5)]))

/-- A remote system with one data source of id 2 (so looking up id 1
fails). -/
def netDs2 : Net := fun r =>
  if r.url = "http://scada/api/datasources" then
    .response 200 (.ok (.arr [.obj [("id", .num 2)]]))
  else
    .exn "connection refused"

/-- Modelled from the spec's words (amended "present" to "truthy"): the
point-value requests that `data_point_analysis` should issue — one per
data point whose `id` field is present and truthy, in order. -/
def spec_point_value_requests (c : ScadaLTSClient) (pts : List Json) :
    List HttpRequest :=
  pts.filterMap (fun dp =>
    match Json.getField dp "id" with
    | some idv =>
        if idv.truthy then some (c.get_point_value_req idv) else none
    | none => none)

/-! ## Helper lemmas -/

lemma head?_dropWhile_false (p : Char → Bool) (l : List Char) :
    ∀ c, (l.dropWhile p).head? = some c → p c = false := by
  induction l with
  | nil => intro c h; simp [List.dropWhile] at h
  | cons a t ih =>
    intro c h
    by_cases hp : p a
    · simp [List.dropWhile, hp] at h; exact ih c h
    · simp [List.dropWhile, hp] at h; subst h; simpa using hp

lemma noTrailSlash_rstripSlash (s : String) :
    noTrailSlash (rstripSlash s) = true := by
  unfold noTrailSlash rstripSlash
  have hrev : ∀ (xs : List Char), xs.reverse.getLast? = xs.head? := by
    intro xs; simp
  rw [show (String.mk ((s.data.reverse.dropWhile (fun c => c == '/')).reverse)).data
        = (s.data.reverse.dropWhile (fun c => c == '/')).reverse from rfl,
      hrev]
  cases h : (s.data.reverse.dropWhile (fun c => c == '/')).head? with
  | none => rfl
  | some c =>
    have := head?_dropWhile_false (fun c => c == '/') s.data.reverse c h
    simp [this]

/-- Method `authenticate` can only change the session token. -/
lemma authenticate_base_url (c : ScadaLTSClient) (net : Net) :
    ((c.authenticate net).1.2).base_url = c.base_url := by
  unfold ScadaLTSClient.authenticate
  repeat' split
  all_goals rfl

/-- Every branch of the configured dispatch produces either an escaping
exception or a single text result. -/
lemma dispatch_tool_shape (c : ScadaLTSClient) (net : Net) (name : String)
    (args : List (String × Json)) :
    (∃ e, (dispatch_tool c net name args).1 = .error e) ∨
    (∃ s, (dispatch_tool c net name args).1 = .ok (textResult s)) := by
  unfold dispatch_tool
  dsimp only
  repeat' split
  all_goals first
    | exact .inl ⟨_, rfl⟩
    | exact .inr ⟨_, rfl⟩

/-- The body of `call_tool` produces either an escaping exception or a
single text result together with a next state. -/
lemma call_tool_body_shape (st : Option ScadaLTSClient) (net : Net)
    (name : String) (args : List (String × Json)) :
    (∃ e, (call_tool_body st net name args).1 = .error e) ∨
    (∃ s st2, (call_tool_body st net name args).1 = .ok (textResult s, st2)) := by
  unfold call_tool_body
  split
  · dsimp only
    repeat' split
    all_goals first
      | exact .inl ⟨_, rfl⟩
      | exact .inr ⟨_, _, rfl⟩
  · split
    · exact .inr ⟨_, _, rfl⟩
    · rename_i c
      dsimp only
      rcases dispatch_tool_shape c net name args with ⟨e, he⟩ | ⟨s, hs⟩
      · rw [he]; exact .inl ⟨_, rfl⟩
      · rw [hs]; exact .inr ⟨_, _, rfl⟩

/-- Handler `call_tool` never changes the state unless the tool is
`configure_connection`. -/
lemma call_tool_frame (st : Option ScadaLTSClient) (net : Net)
    (name : String) (args : List (String × Json))
    (h : name ≠ "configure_connection") :
    (call_tool st net name args).2.1 = st := by
  unfold call_tool call_tool_body
  simp only [if_neg h]
  cases st with
  | none => rfl
  | some c =>
    dsimp only
    rcases dispatch_tool_shape c net name args with ⟨e, he⟩ | ⟨s, hs⟩
    · rw [he]
    · rw [hs]

/-- Handler `get_prompt` never changes the state. -/
lemma get_prompt_state_eq (st : Option ScadaLTSClient) (net : Net)
    (name : String) (args : List (String × String)) :
    (get_prompt st net name args).2.1 = st := by
  cases st <;> rfl

/-- The state after any `call_tool` is either the old state or a freshly
constructed, freshly authenticated client. -/
lemma call_tool_state_cases (st : Option ScadaLTSClient) (net : Net)
    (name : String) (args : List (String × Json)) :
    (call_tool st net name args).2.1 = st ∨
    ∃ s u p, (call_tool st net name args).2.1 =
      some ((ScadaLTSClient.init s u p).authenticate net).1.2 := by
  by_cases h : name = "configure_connection"
  · subst h
    unfold call_tool call_tool_body
    simp only [if_pos rfl]
    rcases hb : pyGetItem args "base_url" with e | bu
    · exact .inl rfl
    · cases bu <;> first
        | exact .inl rfl
        | exact .inr ⟨_, _, _, rfl⟩
  · exact .inl (call_tool_frame st net name args h)

/-- A successful `configure_connection` ends in the freshly constructed,
freshly authenticated client, regardless of the previous state. -/
lemma call_tool_configure (st : Option ScadaLTSClient) (net : Net)
    (args : List (String × Json)) (s : String)
    (h : pyGet args "base_url" = some (.str s)) :
    (call_tool st net "configure_connection" args).2.1 =
      some ((ScadaLTSClient.init s (pyGetD args "username" (.str ""))
        (pyGetD args "password" (.str ""))).authenticate net).1.2 := by
  have hgi : pyGetItem args "base_url" = .ok (.str s) := by
    unfold pyGetItem; rw [h]
  unfold call_tool call_tool_body
  simp [hgi]

lemma pyKeyEq_num {a b : Int} (h : pyKeyEq (.num a) (.num b) = true) :
    a = b := by
  simpa [pyKeyEq] using h

/-- Membership after a Python-dict insertion: an entry of the updated
dict is an old entry, the new pair, or an old key rebound to the new
value. -/
lemma dictSetKnown_mem {k v : Json} :
    ∀ (acc : List (Json × Json)) (kv : Json × Json),
      kv ∈ dictSetKnown k v acc →
      kv ∈ acc ∨ kv = (k, v) ∨
      (∃ v0, (kv.1, v0) ∈ acc ∧ kv.2 = v ∧ pyKeyEq kv.1 k = true) := by
  intro acc
  induction acc with
  | nil =>
    intro kv h
    simp only [dictSetKnown, List.mem_singleton] at h
    exact Or.inr (Or.inl h)
  | cons hd tl ih =>
    intro kv h
    obtain ⟨k0, v0⟩ := hd
    simp only [dictSetKnown] at h
    by_cases hpe : pyKeyEq k0 k
    · rw [if_pos hpe] at h
      rcases List.mem_cons.mp h with h | h
      · subst h
        exact Or.inr (Or.inr ⟨v0, List.mem_cons_self _ _, rfl, hpe⟩)
      · exact Or.inl (List.mem_cons_of_mem _ h)
    · rw [if_neg hpe] at h
      rcases List.mem_cons.mp h with h | h
      · subst h
        exact Or.inl (List.mem_cons_self _ _)
      · rcases ih kv h with h1 | h1 | ⟨w, hw, hv, hpk⟩
        · exact Or.inl (List.mem_cons_of_mem _ h1)
        · exact Or.inr (Or.inl h1)
        · exact Or.inr (Or.inr ⟨w, List.mem_cons_of_mem _ hw, hv, hpk⟩)

/-- Method `get_point_value` issues exactly its one request, whatever the
transport does. -/
lemma get_point_value_log (c : ScadaLTSClient) (pid : Json) (net : Net) :
    (c.get_point_value pid net).2 = [c.get_point_value_req pid] := by
  unfold ScadaLTSClient.get_point_value
  repeat' split
  all_goals rfl

/-- The analysis loop issues exactly one point-value request per
truthy-id point and builds a dict whose every entry holds the value
fetched for its key, provided all points are dicts with numeric (or
absent, or falsy) ids. -/
lemma fetchPointValues_spec (c : ScadaLTSClient) (net : Net) :
    ∀ (pts : List Json) (acc : List (Json × Json)),
      (∀ dp ∈ pts, ∃ fs, dp = Json.obj fs) →
      (∀ dp ∈ pts, ∀ idv, Json.getField dp "id" = some idv →
          idv.truthy = true → ∃ n, idv = Json.num n) →
      (∀ kv ∈ acc, (∃ n, kv.1 = Json.num n) ∧
          kv.2 = optToJson (c.get_point_value kv.1 net).1) →
      (fetchPointValues c net pts acc).2 = spec_point_value_requests c pts ∧
      ∃ m, (fetchPointValues c net pts acc).1 = .ok m ∧
        ∀ kv ∈ m, (∃ n, kv.1 = Json.num n) ∧
          kv.2 = optToJson (c.get_point_value kv.1 net).1 := by
  intro pts
  induction pts with
  | nil =>
    intro acc _ _ hacc
    exact ⟨rfl, acc, rfl, hacc⟩
  | cons dp rest ih =>
    intro acc hobj hnum hacc
    obtain ⟨fs, hdp⟩ := hobj dp (List.mem_cons_self _ _)
    subst hdp
    have hobj' : ∀ dp ∈ rest, ∃ fs, dp = Json.obj fs :=
      fun dp h => hobj dp (List.mem_cons_of_mem _ h)
    have hnum' : ∀ dp ∈ rest, ∀ idv, Json.getField dp "id" = some idv →
        idv.truthy = true → ∃ n, idv = Json.num n :=
      fun dp h => hnum dp (List.mem_cons_of_mem _ h)
    cases hid : Json.getField (.obj fs) "id" with
    | none =>
      have := ih acc hobj' hnum' hacc
      simpa [fetchPointValues, hid, spec_point_value_requests] using this
    | some idv =>
      by_cases htr : idv.truthy = true
      · obtain ⟨n, hn⟩ :=
          hnum (.obj fs) (List.mem_cons_self _ _) idv hid htr
        subst hn
        have hacc2 : ∀ kv ∈ dictSetKnown (Json.num n)
            (optToJson (c.get_point_value (Json.num n) net).1) acc,
            (∃ m, kv.1 = Json.num m) ∧
            kv.2 = optToJson (c.get_point_value kv.1 net).1 := by
          intro kv hkv
          rcases dictSetKnown_mem acc kv hkv with h | h | ⟨v0, hv0, hv, hpk⟩
          · exact hacc kv h
          · subst h
            exact ⟨⟨n, rfl⟩, rfl⟩
          · obtain ⟨⟨m, hm⟩, -⟩ := hacc _ hv0
            have : m = n := by
              apply pyKeyEq_num
              rw [← hm]
              exact hpk
            refine ⟨⟨m, hm⟩, ?_⟩
            rw [hv, hm, this]
        have hrest := ih (dictSetKnown (Json.num n)
          (optToJson (c.get_point_value (Json.num n) net).1) acc)
          hobj' hnum' hacc2
        obtain ⟨hlog, m, hm, hP⟩ := hrest
        constructor
        · simp only [fetchPointValues, hid, htr, if_pos, dictSet]
          rw [get_point_value_log, hlog]
          simp [spec_point_value_requests, hid, htr]
        · refine ⟨m, ?_, hP⟩
          simp only [fetchPointValues, hid, htr, if_pos, dictSet]
          exact hm
      · have htr' : idv.truthy = false := by
          cases h : idv.truthy
          · rfl
          · exact absurd h htr
        have := ih acc hobj' hnum' hacc
        simpa [fetchPointValues, hid, htr', spec_point_value_requests]
          using this

/-! ## Claim theorems -/

/-- C2: every Remote Client capability never raises past its boundary:
an HTTP 200 response yields the documented parsed result, and any non-200
status, JSON-parse failure or transport exception yields the capability's
documented sentinel (empty list for the list operations, absent value for
`get_point_value`, status equality for `set_point_value` and
`acknowledge_alarm`, a status object with an `error` field for
`get_system_status`). -/
theorem c2_client_sentinels (c : ScadaLTSClient) (net : Net) :
    ((∀ j, net c.get_data_sources_req = .response 200 (.ok j) →
        c.get_data_sources net = (j, [c.get_data_sources_req])) ∧
     (∀ s b, s ≠ 200 → net c.get_data_sources_req = .response s b →
        c.get_data_sources net = (.arr [], [c.get_data_sources_req])) ∧
     (∀ e, net c.get_data_sources_req = .response 200 (.error e) →
        c.get_data_sources net = (.arr [], [c.get_data_sources_req])) ∧
     (∀ m, net c.get_data_sources_req = .exn m →
        c.get_data_sources net = (.arr [], [c.get_data_sources_req]))) ∧
    ((∀ dsid j, net (c.get_data_points_req dsid) = .response 200 (.ok j) →
        c.get_data_points dsid net = (j, [c.get_data_points_req dsid])) ∧
     (∀ dsid s b, s ≠ 200 → net (c.get_data_points_req dsid) = .response s b →
        c.get_data_points dsid net = (.arr [], [c.get_data_points_req dsid])) ∧
     (∀ dsid e, net (c.get_data_points_req dsid) = .response 200 (.error e) →
        c.get_data_points dsid net = (.arr [], [c.get_data_points_req dsid])) ∧
     (∀ dsid m, net (c.get_data_points_req dsid) = .exn m →
        c.get_data_points dsid net = (.arr [], [c.get_data_points_req dsid]))) ∧
    ((∀ pid j, net (c.get_point_value_req pid) = .response 200 (.ok j) →
        c.get_point_value pid net = (j.toPyOpt, [c.get_point_value_req pid])) ∧
     (∀ pid s b, s ≠ 200 → net (c.get_point_value_req pid) = .response s b →
        c.get_point_value pid net = (none, [c.get_point_value_req pid])) ∧
     (∀ pid e, net (c.get_point_value_req pid) = .response 200 (.error e) →
        c.get_point_value pid net = (none, [c.get_point_value_req pid])) ∧
     (∀ pid m, net (c.get_point_value_req pid) = .exn m →
        c.get_point_value pid net = (none, [c.get_point_value_req pid]))) ∧
    ((∀ pid v s b, net (c.set_point_value_req pid v) = .response s b →
        c.set_point_value pid v net =
          ((s == 200 : Bool), [c.set_point_value_req pid v])) ∧
     (∀ pid v m, net (c.set_point_value_req pid v) = .exn m →
        c.set_point_value pid v net =
          (false, [c.set_point_value_req pid v]))) ∧
    ((∀ ao j, net (c.get_alarms_req ao) = .response 200 (.ok j) →
        c.get_alarms ao net = (j, [c.get_alarms_req ao])) ∧
     (∀ ao s b, s ≠ 200 → net (c.get_alarms_req ao) = .response s b →
        c.get_alarms ao net = (.arr [], [c.get_alarms_req ao])) ∧
     (∀ ao e, net (c.get_alarms_req ao) = .response 200 (.error e) →
        c.get_alarms ao net = (.arr [], [c.get_alarms_req ao])) ∧
     (∀ ao m, net (c.get_alarms_req ao) = .exn m →
        c.get_alarms ao net = (.arr [], [c.get_alarms_req ao]))) ∧
    ((∀ aid s b, net (c.acknowledge_alarm_req aid) = .response s b →
        c.acknowledge_alarm aid net =
          ((s == 200 : Bool), [c.acknowledge_alarm_req aid])) ∧
     (∀ aid m, net (c.acknowledge_alarm_req aid) = .exn m →
        c.acknowledge_alarm aid net =
          (false, [c.acknowledge_alarm_req aid]))) ∧
    ((∀ j, net c.get_system_status_req = .response 200 (.ok j) →
        c.get_system_status net = (j, [c.get_system_status_req])) ∧
     (∀ s b, s ≠ 200 → net c.get_system_status_req = .response s b →
        c.get_system_status net =
          (.obj [("status", .str "unknown"),
                 ("error", .str ("HTTP " ++ toString s))],
           [c.get_system_status_req])) ∧
     (∀ e, net c.get_system_status_req = .response 200 (.error e) →
        c.get_system_status net =
          (.obj [("status", .str "error"), ("error", .str e)],
           [c.get_system_status_req])) ∧
     (∀ m, net c.get_system_status_req = .exn m →
        c.get_system_status net =
          (.obj [("status", .str "error"), ("error", .str m)],
           [c.get_system_status_req]))) := by
  refine ⟨⟨?_, ?_, ?_, ?_⟩, ⟨?_, ?_, ?_, ?_⟩, ⟨?_, ?_, ?_, ?_⟩, ⟨?_, ?_⟩,
         ⟨?_, ?_, ?_, ?_⟩, ⟨?_, ?_⟩, ⟨?_, ?_, ?_, ?_⟩⟩ <;>
    intros <;>
    simp_all [ScadaLTSClient.get_data_sources, ScadaLTSClient.get_data_points,
      ScadaLTSClient.get_point_value, ScadaLTSClient.set_point_value,
      ScadaLTSClient.get_alarms, ScadaLTSClient.acknowledge_alarm,
      ScadaLTSClient.get_system_status]

/-- Witness for C2 at concrete inputs: a transport failure yields the
empty-list sentinel for `get_data_sources`, and a 200 response yields the
parsed array. -/
theorem c2_witness :
    netFail clientEx.get_data_sources_req = .exn "connection refused" ∧
    clientEx.get_data_sources netFail =
      (.arr [], [clientEx.get_data_sources_req]) ∧
    netTok clientEx.get_data_sources_req =
      .response 200 (.ok (.obj [("token", .str "abc123")])) ∧
    clientEx.get_data_sources netTok =
      (.obj [("token", .str "abc123")], [clientEx.get_data_sources_req]) := by
  have h1 := (c2_client_sentinels clientEx netFail).1.2.2.2
  have h2 := (c2_client_sentinels clientEx netTok).1.1
  exact ⟨rfl, h1 "connection refused" rfl, rfl,
         h2 (.obj [("token", .str "abc123")]) rfl⟩

/-- C3: invoking any tool other than `configure_connection` while no
client is configured returns the fixed advisory text (not an error),
leaves the state unconfigured, and issues no HTTP request. -/
theorem c3_unconfigured_advisory (net : Net) (name : String)
    (args : List (String × Json)) (h : name ≠ "configure_connection") :
    call_tool none net name args = (textResult advisoryText, none, []) := by
  unfold call_tool call_tool_body
  simp [h]

/-- Witness for C3 at a concrete input. -/
theorem c3_witness :
    "get_data_sources" ≠ "configure_connection" ∧
    call_tool none netFail "get_data_sources" [] =
      (textResult advisoryText, none, []) :=
  ⟨by decide,
   c3_unconfigured_advisory netFail "get_data_sources" [] (by decide)⟩

/-- C4: `authenticate()` succeeds immediately with no HTTP request when
username or password is missing (guest mode); otherwise it POSTs the
credentials to `/api/auth/login` and, on HTTP 200 with a dict body,
stores the response's `token` field (a missing key or JSON `null` leaves
the token unset) and succeeds, while on any other status or caught
exception — a transport failure, an unparseable body, or the
`AttributeError` of `data.get("token")` on a non-dict 200 body — it
fails and leaves the client (hence its session token) unchanged. -/
theorem c4_authenticate (c : ScadaLTSClient) (net : Net) :
    ((c.username.truthy = false ∨ c.password.truthy = false) →
        c.authenticate net = ((true, c), [])) ∧
    (c.username.truthy = true → c.password.truthy = true →
      (c.authReq.method = .post ∧
       c.authReq.url = c.base_url ++ "/api/auth/login" ∧
       c.authReq.body =
         some (.obj [("username", c.username), ("password", c.password)]) ∧
       (∀ fs, net c.authReq = .response 200 (.ok (.obj fs)) →
          c.authenticate net =
            ((true, { c with session_token :=
                ((Json.obj fs).getField "token").bind Json.toPyOpt }),
             [c.authReq])) ∧
       (∀ d, net c.authReq = .response 200 (.ok d) → d.isObj = false →
          c.authenticate net = ((false, c), [c.authReq])) ∧
       (∀ s b, s ≠ 200 → net c.authReq = .response s b →
          c.authenticate net = ((false, c), [c.authReq])) ∧
       (∀ e, net c.authReq = .response 200 (.error e) →
          c.authenticate net = ((false, c), [c.authReq])) ∧
       (∀ m, net c.authReq = .exn m →
          c.authenticate net = ((false, c), [c.authReq])))) := by
  constructor
  · intro h
    unfold ScadaLTSClient.authenticate
    rcases h with h | h <;> simp [h]
  · intro hu hp
    refine ⟨rfl, rfl, rfl, ?_, ?_, ?_, ?_, ?_⟩
    · intro fs h
      simp_all [ScadaLTSClient.authenticate]
    · intro d h hobj
      cases d <;> simp_all [ScadaLTSClient.authenticate, Json.isObj]
    all_goals (intros; simp_all [ScadaLTSClient.authenticate])

/-- Witness for C4 at concrete inputs: guest mode with no credentials
issues nothing; with credentials and a 200 dict response the token is
stored; with a 200 array response authentication fails with the token
unchanged. -/
theorem c4_witness :
    clientEx.username.truthy = false ∧
    clientEx.authenticate netFail = ((true, clientEx), []) ∧
    clientCred.username.truthy = true ∧
    clientCred.password.truthy = true ∧
    netTok clientCred.authReq =
      .response 200 (.ok (.obj [("token", .str "abc123")])) ∧
    clientCred.authenticate netTok =
      ((true, { clientCred with session_token := some (.str "abc123") }),
       [clientCred.authReq]) ∧
    netArr200 clientCred.authReq = .response 200 (.ok (.arr [])) ∧
    (Json.arr []).isObj = false ∧
    clientCred.authenticate netArr200 =
      ((false, clientCred), [clientCred.authReq]) := by
  have hg := (c4_authenticate clientEx netFail).1 (Or.inl rfl)
  have hc := ((c4_authenticate clientCred netTok).2 rfl rfl).2.2.2.1
    [("token", .str "abc123")] rfl
  have ha := ((c4_authenticate clientCred netArr200).2 rfl rfl).2.2.2.2.1
    (.arr []) rfl rfl
  exact ⟨rfl, hg, rfl, rfl, rfl, hc, rfl, rfl, ha⟩

/-- C5: with a configured client, invoking a tool whose name is outside
the 8-entry catalog returns the text result `"Unknown tool: <name>"`
(not a protocol-level error), changes nothing and issues no request. -/
theorem c5_unknown_tool (c : ScadaLTSClient) (net : Net) (name : String)
    (args : List (String × Json)) (h : name ∉ toolNames) :
    call_tool (some c) net name args =
      (textResult ("Unknown tool: " ++ name), some c, []) := by
  simp only [toolNames, List.mem_cons, List.mem_singleton, not_or] at h
  obtain ⟨h1, h2, h3, h4, h5, h6, h7, h8, -⟩ := h
  unfold call_tool call_tool_body dispatch_tool
  simp [h1, h2, h3, h4, h5, h6, h7, h8]

/-- Witness for C5 at the spec's concrete example. -/
theorem c5_witness :
    "unknown_tool" ∉ toolNames ∧
    call_tool (some clientEx) netFail "unknown_tool" [] =
      (textResult "Unknown tool: unknown_tool", some clientEx, []) :=
  ⟨by decide,
   c5_unknown_tool clientEx netFail "unknown_tool" [] (by decide)⟩

/-- C10: `get_data_points` appends the `dataSourceId` query filter only
when the argument is truthy: for `0` (and for `None`/absent) the request
is the unfiltered `/api/datapoints`, so filtering by data source `0` is
indistinguishable from requesting all data points. -/
theorem c10_datapoints_filter (c : ScadaLTSClient) (net : Net) (j : Json) :
    (c.get_data_points_req none).url = c.base_url ++ "/api/datapoints" ∧
    c.get_data_points_req (some (.num 0)) = c.get_data_points_req none ∧
    c.get_data_points (some (.num 0)) net = c.get_data_points none net ∧
    (j.truthy = true →
      (c.get_data_points_req (some j)).url =
        (c.get_data_points_req none).url ++ "?dataSourceId=" ++ pyStr j) ∧
    (j.truthy = false →
      c.get_data_points_req (some j) = c.get_data_points_req none) := by
  refine ⟨rfl, rfl, rfl, ?_, ?_⟩ <;>
    intro h <;> simp [ScadaLTSClient.get_data_points_req, h]

/-- Witness for C10 at concrete inputs. -/
theorem c10_witness :
    (Json.num 7).truthy = true ∧
    (clientEx.get_data_points_req (some (.num 7))).url =
      (clientEx.get_data_points_req none).url ++ "?dataSourceId=" ++
        pyStr (.num 7) := by
  have h := (c10_datapoints_filter clientEx netFail (.num 7)).2.2.2.1 rfl
  exact ⟨rfl, h⟩

/-- C6 (amended): every capability request carries the `_get_headers`
headers; those always include `Content-Type: application/json` and
include `Authorization: Bearer <token>` exactly when the session token is
truthy (not merely present); the login request itself carries only the
content-type header. -/
theorem c6_headers (c : ScadaLTSClient) :
    (c.get_data_sources_req.headers = c._get_headers ∧
     (∀ dsid, (c.get_data_points_req dsid).headers = c._get_headers) ∧
     (∀ pid, (c.get_point_value_req pid).headers = c._get_headers) ∧
     (∀ pid v, (c.set_point_value_req pid v).headers = c._get_headers) ∧
     (∀ ao, (c.get_alarms_req ao).headers = c._get_headers) ∧
     (∀ aid, (c.acknowledge_alarm_req aid).headers = c._get_headers) ∧
     c.get_system_status_req.headers = c._get_headers) ∧
    (c._get_headers.find? (fun kv => kv.1 == "Content-Type") =
      some ("Content-Type", "application/json")) ∧
    ((c._get_headers.any (fun kv => kv.1 == "Authorization")) =
      tokenTruthy c.session_token) ∧
    (∀ t, c.session_token = some t → t.truthy = true →
        c._get_headers =
          [("Content-Type", "application/json"),
           ("Authorization", "Bearer " ++ pyStr t)]) ∧
    c.authReq.headers = [("Content-Type", "application/json")] := by
  refine ⟨⟨rfl, fun _ => rfl, fun _ => rfl, fun _ _ => rfl, fun _ => rfl,
          fun _ => rfl, rfl⟩, ?_, ?_, ?_, rfl⟩
  · unfold ScadaLTSClient._get_headers
    repeat' split
    all_goals rfl
  · unfold ScadaLTSClient._get_headers tokenTruthy
    repeat' split
    all_goals simp_all
  · intro t ht htr
    unfold ScadaLTSClient._get_headers
    rw [ht]
    simp [htr]

/-- Witness for C6's conditional clause: the authenticated client of
`netTok` has a truthy token, and its headers carry the bearer token. -/
theorem c6_witness :
    clientCredAuthed.session_token = some (.str "abc123") ∧
    (Json.str "abc123").truthy = true ∧
    clientCredAuthed._get_headers =
      [("Content-Type", "application/json"),
       ("Authorization", "Bearer " ++ pyStr (.str "abc123"))] := by
  have h := (c6_headers clientCredAuthed).2.2.2.1 (.str "abc123") rfl rfl
  exact ⟨rfl, rfl, h⟩

/-- C6 counterexample: a session token can exist (be set) and yet be
falsy — authenticating against a remote system whose login endpoint
returns `{"token": ""}` stores the empty-string token, and subsequent
requests then carry no `Authorization` header, refuting "attaches
`Authorization` if and only if a session token exists". -/
theorem c6_counterexample :
    clientEmptyTok.session_token = some (.str "") ∧
    clientEmptyTok.session_token ≠ none ∧
    clientEmptyTok.get_data_sources_req.headers =
      [("Content-Type", "application/json")] ∧
    (clientEmptyTok.get_data_sources_req.headers.any
      (fun kv => kv.1 == "Authorization")) = false :=
  ⟨rfl, fun h => Option.noConfusion h, rfl, rfl⟩

/-- C1 (amended): `invoke_tool` never raises past its boundary — every
invocation, for every state, transport behaviour, tool name and argument
mapping, produces a single text result (exceptions, e.g. a missing
required key, are caught and rendered).  `get_prompt`, which has no such
catch, never raises while unconfigured. -/
theorem c1_dispatch_boundary :
    (∀ (st : Option ScadaLTSClient) (net : Net) (name : String)
       (args : List (String × Json)),
        ∃ s, (call_tool st net name args).1 = textResult s) ∧
    (∀ (net : Net) (name : String) (args : List (String × String)),
        ∃ r, (get_prompt none net name args).1 = .ok r) := by
  constructor
  · intro st net name args
    unfold call_tool
    dsimp only
    rcases call_tool_body_shape st net name args with ⟨e, he⟩ | ⟨s, st2, hs⟩
    · rw [he]; exact ⟨_, rfl⟩
    · rw [hs]; exact ⟨s, rfl⟩
  · intro net name args
    exact ⟨_, rfl⟩

/-- C1 counterexample: `get_prompt` on a configured client raises a
`KeyError` past its boundary when `data_point_analysis` is requested
without a `data_source_id` argument — the exception is not caught and
rendered as a text result. -/
theorem c1_counterexample :
    (get_prompt (some clientEx) netFail "data_point_analysis" []).1 =
      .error (.keyError "data_source_id") := rfl

/-- C7: `configure_connection` is the only mutator of the process-wide
client: every other tool leaves the state unchanged, every prompt request
leaves it unchanged, a successful configuration replaces the whole client
(including any session token) independently of the previous state, and
the state only ever stays or becomes configured. -/
theorem c7_state_mutation :
    (∀ (st : Option ScadaLTSClient) (net : Net) (name : String)
       (args : List (String × Json)), name ≠ "configure_connection" →
        (call_tool st net name args).2.1 = st) ∧
    (∀ (st : Option ScadaLTSClient) (net : Net) (name : String)
       (args : List (String × String)),
        (get_prompt st net name args).2.1 = st) ∧
    (∀ (st st2 : Option ScadaLTSClient) (net : Net)
       (args : List (String × Json)) (s : String),
        pyGet args "base_url" = some (.str s) →
        (call_tool st net "configure_connection" args).2.1 =
        (call_tool st2 net "configure_connection" args).2.1) ∧
    (∀ (st : Option ScadaLTSClient) (net : Net)
       (args : List (String × Json)) (s : String),
        pyGet args "base_url" = some (.str s) →
        (call_tool st net "configure_connection" args).2.1 =
          some ((ScadaLTSClient.init s (pyGetD args "username" (.str ""))
            (pyGetD args "password" (.str ""))).authenticate net).1.2) ∧
    (∀ (st : Option ScadaLTSClient) (net : Net) (name : String)
       (args : List (String × Json)),
        (call_tool st net name args).2.1 = st ∨
        ∃ cl, (call_tool st net name args).2.1 = some cl) := by
  refine ⟨call_tool_frame, get_prompt_state_eq, ?_, call_tool_configure, ?_⟩
  · intro st st2 net args s h
    rw [call_tool_configure st net args s h, call_tool_configure st2 net args s h]
  · intro st net name args
    rcases call_tool_state_cases st net name args with h | ⟨s, u, p, h⟩
    · exact Or.inl h
    · exact Or.inr ⟨_, h⟩

/-- Witness for C7 at concrete inputs. -/
theorem c7_witness :
    "get_data_sources" ≠ "configure_connection" ∧
    (call_tool (some clientEx) netFail "get_data_sources" []).2.1 =
      some clientEx ∧
    pyGet cfgArgs "base_url" = some (.str "http://h/") ∧
    (call_tool none netFail "configure_connection" cfgArgs).2.1 =
      (call_tool (some clientEx) netFail "configure_connection" cfgArgs).2.1 := by
  have h1 := c7_state_mutation.1 (some clientEx) netFail "get_data_sources" []
    (by decide)
  have h3 := c7_state_mutation.2.2.1 none (some clientEx) netFail cfgArgs
    "http://h/" rfl
  exact ⟨by decide, h1, rfl, h3⟩

/-- C8: the constructed client's `base_url` never has a trailing slash,
no operation changes it, and the invariant holds in every reachable
configured state. -/
theorem c8_base_url_invariant :
    (∀ (s : String) (u p : Json),
        noTrailSlash (ScadaLTSClient.init s u p).base_url = true) ∧
    (∀ (c : ScadaLTSClient) (net : Net),
        ((c.authenticate net).1.2).base_url = c.base_url) ∧
    (∀ st, Reachable st → ∀ c, st = some c →
        noTrailSlash c.base_url = true) := by
  refine ⟨fun s u p => noTrailSlash_rstripSlash s, authenticate_base_url, ?_⟩
  intro st hst
  induction hst with
  | init => intro c h; exact Option.noConfusion h
  | tool st net name args hr ih =>
    intro c h
    rcases call_tool_state_cases st net name args with hc | ⟨s, u, p, hc⟩
    · rw [hc] at h
      exact ih c h
    · rw [hc] at h
      injection h with h
      rw [← h, authenticate_base_url]
      exact noTrailSlash_rstripSlash s
  | promptStep st net name args hr ih =>
    intro c h
    rw [get_prompt_state_eq] at h
    exact ih c h

/-- Witness for C8: the state configured by a `configure_connection` call
with a trailing-slash URL is reachable and satisfies the invariant. -/
theorem c8_witness :
    Reachable (some clientCfg) ∧ noTrailSlash clientCfg.base_url = true := by
  have hr : Reachable (some clientCfg) :=
    Reachable.tool none netFail "configure_connection" cfgArgs Reachable.init
  exact ⟨hr, c8_base_url_invariant.2.2 (some clientCfg) hr clientCfg rfl⟩

/-- C9 (amended): when the `data_source_id` argument parses as an integer
that matches no `id` in the returned data-source list, the
`data_point_analysis` prompt returns the "not found" report having issued
only the data-source fetch — no data-point or point-value request;
otherwise it fetches the data points for that source and, for each point
with a truthy (present and non-zero/non-empty) `id`, sequentially fetches
its current value into a mapping from point id to value. -/
theorem c9_analysis :
    (∀ (c : ScadaLTSClient) (net : Net) (args : List (String × String))
       (sArg : String) (i : Int) (l : List Json),
        pyGetS args "data_source_id" = some sArg →
        pyInt sArg = .ok i →
        net c.get_data_sources_req = .response 200 (.ok (.arr l)) →
        findDataSource l i = .ok none →
        get_prompt (some c) net "data_point_analysis" args =
          (.ok { description := "Data source not found",
                 messages := ["Data source with ID " ++ toString i ++
                              " not found."] },
           some c, [c.get_data_sources_req])) ∧
    (∀ (c : ScadaLTSClient) (net : Net) (args : List (String × String))
       (sArg : String) (i : Int) (l : List Json) (ds : Json)
       (pts : List Json) (pv : List (Json × Json)),
        pyGetS args "data_source_id" = some sArg →
        pyInt sArg = .ok i →
        net c.get_data_sources_req = .response 200 (.ok (.arr l)) →
        findDataSource l i = .ok (some ds) →
        ds.truthy = true →
        net (c.get_data_points_req (some (.num i))) =
          .response 200 (.ok (.arr pts)) →
        (fetchPointValues c net pts []).1 = .ok pv →
        get_prompt (some c) net "data_point_analysis" args =
          (.ok { description := "Analysis of data source " ++ toString i,
                 messages := [analysisContent ds (.arr pts) pv] },
           some c,
           [c.get_data_sources_req, c.get_data_points_req (some (.num i))] ++
             (fetchPointValues c net pts []).2)) ∧
    (∀ (c : ScadaLTSClient) (net : Net) (pts : List Json),
        (∀ dp ∈ pts, ∃ fs, dp = Json.obj fs) →
        (∀ dp ∈ pts, ∀ idv, Json.getField dp "id" = some idv →
            idv.truthy = true → ∃ n, idv = Json.num n) →
        (fetchPointValues c net pts []).2 =
          spec_point_value_requests c pts ∧
        ∃ m, (fetchPointValues c net pts []).1 = .ok m ∧
          ∀ kv ∈ m, kv.2 = optToJson (c.get_point_value kv.1 net).1) := by
  refine ⟨?_, ?_, ?_⟩
  · intro c net args sArg i l h1 h2 h3 h4
    have hgi : pyGetItemS args "data_source_id" = .ok sArg := by
      unfold pyGetItemS; rw [h1]
    have hds : c.get_data_sources net = (.arr l, [c.get_data_sources_req]) := by
      simp [ScadaLTSClient.get_data_sources, h3]
    unfold get_prompt get_prompt_core
    simp [hgi, h2, hds, pyIterElems, h4]
  · intro c net args sArg i l ds pts pv h1 h2 h3 h4 h5 h6 h7
    have hgi : pyGetItemS args "data_source_id" = .ok sArg := by
      unfold pyGetItemS; rw [h1]
    have hds : c.get_data_sources net = (.arr l, [c.get_data_sources_req]) := by
      simp [ScadaLTSClient.get_data_sources, h3]
    have hdp : c.get_data_points (some (.num i)) net =
        (.arr pts, [c.get_data_points_req (some (.num i))]) := by
      simp [ScadaLTSClient.get_data_points, h6]
    unfold get_prompt get_prompt_core
    simp [hgi, h2, hds, pyIterElems, h4, h5, hdp, h7]
  · intro c net pts hobj hnum
    obtain ⟨hlog, m, hm, hP⟩ :=
      fetchPointValues_spec c net pts [] hobj hnum (by intro kv h; cases h)
    exact ⟨hlog, m, hm, fun kv h => (hP kv h).2⟩

/-- Witness for C9 at concrete inputs: data source 1 is absent from the
remote list (which holds only id 2), so the prompt reports "not found"
after a single request; and the loop over one numeric-id point issues
exactly its one point-value request. -/
theorem c9_witness :
    pyGetS [("data_source_id", "1")] "data_source_id" = some "1" ∧
    pyInt "1" = .ok 1 ∧
    netDs2 clientEx.get_data_sources_req =
      .response 200 (.ok (.arr [.obj [("id", .num 2)]])) ∧
    findDataSource [.obj [("id", .num 2)]] 1 = .ok none ∧
    get_prompt (some clientEx) netDs2 "data_point_analysis"
        [("data_source_id", "1")] =
      (.ok { description := "Data source not found",
             messages := ["Data source with ID " ++ toString (1 : Int) ++
                          " not found."] },
       some clientEx, [clientEx.get_data_sources_req]) ∧
    (fetchPointValues clientEx netDs2 [.obj [("id", .num 1)]] []).2 =
      spec_point_value_requests clientEx [.obj [("id", .num 1)]] := by
  have hA := c9_analysis.1 clientEx netDs2 [("data_source_id", "1")] "1" 1
    [.obj [("id", .num 2)]] rfl rfl rfl rfl
  have hC := (c9_analysis.2.2 clientEx netDs2 [.obj [("id", .num 1)]]
    (by intro dp h; simp at h; subst h; exact ⟨_, rfl⟩)
    (by intro dp h idv hid htr; simp at h; subst h;
        simp [Json.getField] at hid; subst hid; exact ⟨1, rfl⟩)).1
  exact ⟨rfl, rfl, rfl, rfl, hA, hC⟩

/-- C9 counterexample: a data point whose `id` field is present but `0`
is skipped by the analysis loop — against `netId0` (source 1 exists, its
single point has id 0, point values are served) the prompt succeeds but
issues no point-value request, refuting "for each point with a present
id, sequentially fetches its current value". -/
theorem c9_counterexample :
    Json.getField (.obj [("id", .num 0)]) "id" = some (.num 0) ∧
    netId0 (clientEx.get_data_points_req (some (.num 1))) =
      .response 200 (.ok (.arr [.obj [("id", .num 0)]])) ∧
    (∃ r, (get_prompt (some clientEx) netId0 "data_point_analysis"
        [("data_source_id", "1")]).1 = .ok r) ∧
    (get_prompt (some clientEx) netId0 "data_point_analysis"
        [("data_source_id", "1")]).2.2 =
      [clientEx.get_data_sources_req,
       clientEx.get_data_points_req (some (.num 1))] :=
  ⟨rfl, rfl, ⟨_, rfl⟩, rfl⟩

end Scada
